import Mathlib

/-!
Verification development for the Cashfree Payments n8n node
(`CashfreePayments.node.ts` variants): the payout authorization and
request-signing subsystem.

Modelling conventions:
* JS strings are Lean `String`s; `String.prototype.trim` and the `\s`
  character class are modelled by `jsTrim` / `isJsSpace` over the
  whitespace code points relevant to JS regexps.
* `Date.now()` is modelled as an explicit `now : Nat` parameter
  (milliseconds since the epoch), passed at each call.
* Node's `crypto` module is modelled as an abstract `CryptoBackend`
  record whose operations receive the same configuration arguments the
  source passes (`format: 'der'`, `type: 'spki'`, OAEP padding, SHA-1
  OAEP hash) and may fail with an error message, like the JS functions
  may throw `Error`s whose `.message` is inspected by the source.
* `fetch` is modelled as a pure oracle `HttpRequest → HttpResponse`;
  each modelled operation additionally returns the list of requests it
  issued, in order.
* Parsed JSON bodies are modelled by the `Json` inductive; guarded
  property access is total (`Json.get`, yielding `Json.undefined` for
  missing fields), while the one unguarded dereference in the source —
  `authData.status` on the parsed authorize body — is modelled as
  throwing the JS TypeError when the body is `null`/`undefined`
  (`processAuthBody`).
* JS numbers are modelled as `Int` where they occur in payloads; no
  claim depends on fractional or floating-point behaviour.
-/

/-- JS regexp `\s` / `String.prototype.trim` whitespace code points. -/
def isJsSpace (c : Char) : Bool :=
  let n := c.toNat
  n == 9 || n == 10 || n == 11 || n == 12 || n == 13 || n == 32 ||
  n == 0xA0 || n == 0x1680 || (decide (0x2000 ≤ n) && decide (n ≤ 0x200A)) ||
  n == 0x2028 || n == 0x2029 || n == 0x202F || n == 0x205F ||
  n == 0x3000 || n == 0xFEFF

/-- JS `String.prototype.trim`: strip `\s` characters from both ends. -/
def jsTrim (s : String) : String :=
  String.mk (((s.toList.dropWhile isJsSpace).reverse.dropWhile isJsSpace).reverse)

/-- UTF-8 encoding of a single code point (`Buffer.from(s, 'utf8')`). -/
def utf8Char (c : Char) : List Nat :=
  let n := c.toNat
  if n < 0x80 then [n]
  else if n < 0x800 then [0xC0 + n / 0x40, 0x80 + n % 0x40]
  else if n < 0x10000 then
    [0xE0 + n / 0x1000, 0x80 + (n / 0x40) % 0x40, 0x80 + n % 0x40]
  else
    [0xF0 + n / 0x40000, 0x80 + (n / 0x1000) % 0x40,
     0x80 + (n / 0x40) % 0x40, 0x80 + n % 0x40]

/-- UTF-8 bytes of a string (`Buffer.from(s, 'utf8')`). -/
def utf8Bytes (s : String) : List Nat :=
  (s.toList.map utf8Char).foldr (· ++ ·) []

/-- The base64 alphabet character for a 6-bit value. -/
def b64Char (n : Nat) : Char :=
  "ABCDEFGHIJKLMNOPQRSTUVWXYZabcdefghijklmnopqrstuvwxyz0123456789+/".toList.getD n 'A'

/-- Standard base64 encoding with padding (`buf.toString('base64')`). -/
def base64Encode : List Nat → String
  | [] => ""
  | [a] =>
    String.mk [b64Char (a / 4), b64Char ((a % 4) * 16)] ++ "=="
  | [a, b] =>
    String.mk [b64Char (a / 4), b64Char ((a % 4) * 16 + b / 16),
               b64Char ((b % 16) * 4)] ++ "="
  | a :: b :: c :: rest =>
    String.mk [b64Char (a / 4), b64Char ((a % 4) * 16 + b / 16),
               b64Char ((b % 16) * 4 + c / 64), b64Char (c % 64)] ++
    base64Encode rest

/-- 6-bit value of a base64 alphabet character, `none` for other
characters (Node's decoder skips characters outside the alphabet). -/
def b64Val (c : Char) : Option Nat :=
  if 'A' ≤ c ∧ c ≤ 'Z' then some (c.toNat - 'A'.toNat)
  else if 'a' ≤ c ∧ c ≤ 'z' then some (c.toNat - 'a'.toNat + 26)
  else if '0' ≤ c ∧ c ≤ '9' then some (c.toNat - '0'.toNat + 52)
  else if c = '+' then some 62
  else if c = '/' then some 63
  else none

/-- Regroup a list of 6-bit values into bytes, dropping a trailing
lone 6-bit remainder, as Node's lenient base64 decoder does. -/
def b64Regroup : List Nat → List Nat
  | a :: b :: c :: d :: rest =>
    (a * 4 + b / 16) :: ((b % 16) * 16 + c / 4) :: ((c % 4) * 64 + d) ::
    b64Regroup rest
  | [a, b] => [a * 4 + b / 16]
  | [a, b, c] => [a * 4 + b / 16, (b % 16) * 16 + c / 4]
  | _ => []

/-- Lenient base64 decoding (`Buffer.from(s, 'base64')`): characters
outside the alphabet (including `=`) are ignored; it never fails. -/
def base64Decode (s : String) : List Nat :=
  b64Regroup (s.toList.filterMap b64Val)

/-- Parsed JSON values as produced by `response.json()`.
`undefined` is the result of accessing an absent property. -/
inductive Json where
  | null
  | undefined
  | bool (b : Bool)
  | num (n : Int)
  | str (s : String)
  | arr (elems : List Json)
  | obj (fields : List (String × Json))

/-- JS property access `j[key]`, total: `undefined` when absent or when
the receiver is a non-nullish non-object.  This models the accesses
whose receiver is known non-nullish (truthiness-guarded, or performed
after a successful dereference); the throwing access on a nullish
receiver is modelled separately in `processAuthBody`. -/
def Json.get (j : Json) (key : String) : Json :=
  match j with
  | .obj fields =>
    match fields.lookup key with
    | some v => v
    | none => .undefined
  | _ => .undefined

/-- JS truthiness of a value. -/
def Json.truthy : Json → Bool
  | .null => false
  | .undefined => false
  | .bool b => b
  | .num n => n != 0
  | .str s => s != ""
  | .arr _ => true
  | .obj _ => true

/-- JS strict equality (`===`) against a string literal. -/
def Json.eqStr (j : Json) (s : String) : Bool :=
  match j with
  | .str t => t == s
  | _ => false

mutual

/-- JS string conversion as performed by a template literal. -/
def Json.jsToString : Json → String
  | .null => "null"
  | .undefined => "undefined"
  | .bool b => if b then "true" else "false"
  | .num n => toString n
  | .str s => s
  | .arr elems => jsArrToString elems
  | .obj _ => "[object Object]"

/-- `Array.prototype.toString`: elements joined by commas. -/
def jsArrToString : List Json → String
  | [] => ""
  | [x] => jsArrElemToString x
  | x :: xs => jsArrElemToString x ++ "," ++ jsArrToString xs

/-- An array element inside `Array.prototype.toString`; `null` and
`undefined` render as the empty string there. -/
def jsArrElemToString : Json → String
  | .null => ""
  | .undefined => ""
  | .bool b => if b then "true" else "false"
  | .num n => toString n
  | .str s => s
  | .arr elems => jsArrToString elems
  | .obj _ => "[object Object]"

end

/-- One hexadecimal digit. -/
def hexDigit (n : Nat) : Char :=
  "0123456789abcdef".toList.getD n '0'

/-- JSON string escaping for one character, as in `JSON.stringify`. -/
def jsonEscapeChar (c : Char) : String :=
  if c = '"' then "\\\""
  else if c = '\\' then "\\\\"
  else if c = '\x08' then "\\b"
  else if c = '\x09' then "\\t"
  else if c = '\x0a' then "\\n"
  else if c = '\x0c' then "\\f"
  else if c = '\x0d' then "\\r"
  else if c.toNat < 0x20 then
    "\\u00" ++ String.mk [hexDigit (c.toNat / 16), hexDigit (c.toNat % 16)]
  else String.singleton c

/-- A JSON string literal with quotes and escapes. -/
def jsonQuote (s : String) : String :=
  "\"" ++ String.join (s.toList.map jsonEscapeChar) ++ "\""

mutual

/-- `JSON.stringify` (the source only applies it to parsed JSON
values, which contain no `undefined`; `undefined` is rendered as
`null` here, unobservably for this repository's code paths). -/
def Json.stringify : Json → String
  | .null => "null"
  | .undefined => "null"
  | .bool b => if b then "true" else "false"
  | .num n => toString n
  | .str s => jsonQuote s
  | .arr elems => "[" ++ jsonStringifyList elems ++ "]"
  | .obj fields => "\x7b" ++ jsonStringifyFields fields ++ "\x7d"

/-- Comma-separated stringified array elements. -/
def jsonStringifyList : List Json → String
  | [] => ""
  | [x] => Json.stringify x
  | x :: xs => Json.stringify x ++ "," ++ jsonStringifyList xs

/-- Comma-separated stringified object fields. -/
def jsonStringifyFields : List (String × Json) → String
  | [] => ""
  | [(k, v)] => jsonQuote k ++ ":" ++ Json.stringify v
  | (k, v) :: fs =>
    jsonQuote k ++ ":" ++ Json.stringify v ++ "," ++ jsonStringifyFields fs

end

/-! ### The HTTP and crypto interfaces -/

/-- An outbound HTTP request as assembled by the source's `fetch`
calls: method, URL, headers in order, and optional body string. -/
structure HttpRequest where
  method : String
  url : String
  headers : List (String × String)
  body : Option String

/-- An HTTP response as consumed by the source: `ok` and `status` from
the response object, the `response.text()` body and the parsed
`response.json()` body. -/
structure HttpResponse where
  ok : Bool
  status : Nat
  bodyText : String
  bodyJson : Json

/-- Node `crypto` operations as used by the source.  `createPublicKey`
receives the DER bytes together with the `format` and `type` options
the source passes; `publicEncrypt` receives the key handle, the
padding constant, the `oaepHash` option and the plaintext bytes.
Either may fail with an error message (a thrown `Error`'s message). -/
structure CryptoBackend (Key : Type) where
  createPublicKey : (keyDer : List Nat) → (format : String) →
    (keyKind : String) → Except String Key
  publicEncrypt : (key : Key) → (padding : String) → (oaepHash : String) →
    (data : List Nat) → Except String (List Nat)

/-! ### The payout signing subsystem (`CashfreePayments.node.ts`) -/

/-- Key-material cleaning from `generateEncryptedSignature`: remove all
occurrences of the BEGIN/END PUBLIC KEY delimiter lines, then all `\s`
whitespace (`.replace(/-----BEGIN PUBLIC KEY-----/g, '')` etc.). -/
def cleanPublicKey (publicKeyContent : String) : String :=
  String.mk
    ((((publicKeyContent.replace "-----BEGIN PUBLIC KEY-----" "").replace
        "-----END PUBLIC KEY-----" "").toList.filter (fun c => !isJsSpace c)))

/-- `CashfreePayments.generateEncryptedSignature`: clean the key
material, decode it from base64, build a DER/SPKI public key, encrypt
the subject's UTF-8 bytes with RSA-OAEP (SHA-1 OAEP hash), return the
base64 ciphertext; any crypto failure is wrapped as
`Failed to generate signature: <cause>`. -/
def generateEncryptedSignature {Key : Type} (crypto : CryptoBackend Key)
    (clientIdWithTimestamp publicKeyContent : String) : Except String String :=
  match crypto.createPublicKey (base64Decode (cleanPublicKey publicKeyContent))
      "der" "spki" with
  | .error e => .error ("Failed to generate signature: " ++ e)
  | .ok publicKey =>
    match crypto.publicEncrypt publicKey "RSA_PKCS1_OAEP_PADDING" "sha1"
        (utf8Bytes clientIdWithTimestamp) with
    | .error e => .error ("Failed to generate signature: " ++ e)
    | .ok encryptedData => .ok (base64Encode encryptedData)

/-- `CashfreePayments.createClientIdWithTimestamp`:
`` `${clientId}.${Math.floor(Date.now() / 1000)}` `` with `Date.now()`
modelled as the `now` parameter (milliseconds). -/
def createClientIdWithTimestamp (now : Nat) (clientId : String) : String :=
  clientId ++ "." ++ toString (now / 1000)

/-- `CashfreePayments.getPayoutBaseUrl` (part_000 variant). -/
def getPayoutBaseUrl (environment : String) : String :=
  if environment = "sandbox" then "https://sandbox.cashfree.com"
  else "https://payout-api.cashfree.com"

/-- `CashfreePayments.getPayoutBaseUrl` (part_001 variant, which uses
the payout-gamma sandbox host). -/
def getPayoutBaseUrlGamma (environment : String) : String :=
  if environment = "sandbox" then "https://payout-gamma.cashfree.com"
  else "https://payout-api.cashfree.com"

/-- Error wrapping by `getPayoutAuthToken`'s outer catch block. -/
def wrapAuthError (e : String) : String :=
  "Failed to get authorization token: " ++ e

/-- The headers of the authorize request in `getPayoutAuthToken`. -/
def authorizeHeaders (clientId clientSecret signature : String) :
    List (String × String) :=
  [("Content-Type", "application/json"),
   ("X-Client-Id", jsTrim clientId),
   ("X-Client-Secret", jsTrim clientSecret),
   ("X-Cf-Signature", signature)]

/-- The authorize request issued by `getPayoutAuthToken`: a POST to
`<base>/payout/v1/authorize` with no body. -/
def authorizeRequest (clientId clientSecret signature environment : String) :
    HttpRequest :=
  { method := "POST"
    url := getPayoutBaseUrl environment ++ "/payout/v1/authorize"
    headers := authorizeHeaders clientId clientSecret signature
    body := none }

/-- The condition under which `getPayoutAuthToken` returns a token:
`authData.status === 'SUCCESS' && authData.data && authData.data.token`. -/
def successCond (authData : Json) : Bool :=
  (authData.get "status").eqStr "SUCCESS" && (authData.get "data").truthy &&
    ((authData.get "data").get "token").truthy

/-- The message of the TypeError V8 throws when the unguarded
`authData.status` property access hits `null` or `undefined`:
`Cannot read properties of <kind> (reading <q>status<q>)` where `<q>`
is the single-quote character (written via its code point here). -/
def typeErrorReadingStatus (kind : String) : String :=
  "Cannot read properties of " ++ kind ++ " (reading " ++
    String.singleton (Char.ofNat 39) ++ "status" ++
    String.singleton (Char.ofNat 39) ++ ")"

/-- Handling of the parsed `authData` inside `getPayoutAuthToken`
(lines 114-126 of the source).  The first two arms model the TypeError
thrown by the unguarded `authData.status` dereference when the parsed
body is `null` (or `undefined`): evaluation of the SUCCESS condition
throws before any branch is reached.  Every later access is either
truthiness-guarded (`data.token`) or harmlessly yields `undefined` in
JS (`message`, `subCode` on a non-null value), so total access
(`Json.get`) is faithful for the remaining arm. -/
def processAuthBody : Json → Except String Json
  | .null => .error (typeErrorReadingStatus "null")
  | .undefined => .error (typeErrorReadingStatus "undefined")
  | authData =>
    if successCond authData then
      .ok ((authData.get "data").get "token")
    else if (authData.get "status").eqStr "ERROR" then
      .error ("Cashfree API Error: " ++
        (authData.get "message").jsToString ++ " (" ++
        (authData.get "subCode").jsToString ++ ")")
    else
      .error ("No valid token found in authorization response: " ++
        Json.stringify authData)

/-- Handling of the authorize endpoint's response inside
`getPayoutAuthToken` (lines 109-126 of the source): the non-ok check,
then the body handling (`processAuthBody`): TypeError on a nullish
body, SUCCESS/token extraction, ERROR branch, and fallback. -/
def processAuthResponse (response : HttpResponse) : Except String Json :=
  if !response.ok then
    .error ("Authorization failed: " ++ toString response.status ++ " - " ++
      response.bodyText)
  else
    processAuthBody response.bodyJson

/-- `CashfreePayments.getPayoutAuthToken`: validate the credentials,
build and sign the timestamped subject, POST to the authorize endpoint
and extract the token; every failure is wrapped by the outer catch as
`Failed to get authorization token: <cause>`.  Returns the result
together with the list of HTTP requests issued. -/
def getPayoutAuthToken {Key : Type} (crypto : CryptoBackend Key)
    (fetch : HttpRequest → HttpResponse) (now : Nat)
    (clientId clientSecret publicKey environment : String) :
    Except String Json × List HttpRequest :=
  if clientId == "" || jsTrim clientId == "" then
    (.error (wrapAuthError "Payout Client ID is empty or missing"), [])
  else if clientSecret == "" || jsTrim clientSecret == "" then
    (.error (wrapAuthError "Payout Client Secret is empty or missing"), [])
  else if publicKey == "" || jsTrim publicKey == "" then
    (.error (wrapAuthError "Payout Public Key is empty or missing"), [])
  else
    match generateEncryptedSignature crypto
        (createClientIdWithTimestamp now clientId) publicKey with
    | .error e => (.error (wrapAuthError e), [])
    | .ok signature =>
      let request := authorizeRequest clientId clientSecret signature environment
      match processAuthResponse (fetch request) with
      | .ok token => (.ok token, [request])
      | .error e => (.error (wrapAuthError e), [request])

/-! ### The payout operations in `execute` -/

/-- The createCashgram parameters read from the node
(`cashgram_id`, `cashgram_amount`, ..., `cashgram_notify_customer`). -/
structure CashgramParams where
  cashgramId : String
  amount : Int
  name : String
  email : String
  phone : String
  linkExpiry : String
  remarks : String
  notifyCustomer : Int

/-- The JSON body of the createCashgram request: exactly the eight
fields serialized by the source, in source order. -/
def cashgramBody (p : CashgramParams) : Json :=
  .obj [("cashgramId", .str p.cashgramId),
        ("amount", .num p.amount),
        ("name", .str p.name),
        ("email", .str p.email),
        ("phone", .str p.phone),
        ("linkExpiry", .str p.linkExpiry),
        ("remarks", .str p.remarks),
        ("notifyCustomer", .num p.notifyCustomer)]

/-- The createCashgram request: POST to
`<payoutBase>/payout/v1/createCashgram` with a bearer header (the
token value interpolated into the `Bearer ${authToken}` template) and
the JSON-stringified body. -/
def cashgramRequest (environment : String) (authToken : Json)
    (params : CashgramParams) : HttpRequest :=
  { method := "POST"
    url := getPayoutBaseUrl environment ++ "/payout/v1/createCashgram"
    headers := [("Content-Type", "application/json"),
                ("Authorization", "Bearer " ++ authToken.jsToString)]
    body := some (Json.stringify (cashgramBody params)) }

/-- The `createCashgram` branch of `execute` (part_000 lines
1491-1538): obtain a token via `getPayoutAuthToken` (the credentials
are passed through `String(...).trim()`), then POST the payload; a
non-ok status raises `Cashgram creation failed: <status> - <body>`,
otherwise the parsed JSON response is returned unchanged. -/
def createCashgramOp {Key : Type} (crypto : CryptoBackend Key)
    (fetch : HttpRequest → HttpResponse) (now : Nat)
    (payoutClientId payoutClientSecret payoutPublicKey environment : String)
    (params : CashgramParams) : Except String Json × List HttpRequest :=
  match getPayoutAuthToken crypto fetch now (jsTrim payoutClientId)
      (jsTrim payoutClientSecret) payoutPublicKey environment with
  | (.error e, requests) => (.error e, requests)
  | (.ok authToken, requests) =>
    let request := cashgramRequest environment authToken params
    let response := fetch request
    if !response.ok then
      (.error ("Cashgram creation failed: " ++ toString response.status ++
        " - " ++ response.bodyText), requests ++ [request])
    else
      (.ok response.bodyJson, requests ++ [request])

/-- The deactivateCashgram request: POST to
`<payoutBase>/payout/v1/deactivateCashgram` with only the id in the
body. -/
def deactivateRequest (environment : String) (authToken : Json)
    (cashgramId : String) : HttpRequest :=
  { method := "POST"
    url := getPayoutBaseUrl environment ++ "/payout/v1/deactivateCashgram"
    headers := [("Content-Type", "application/json"),
                ("Authorization", "Bearer " ++ authToken.jsToString)]
    body := some (Json.stringify (.obj [("cashgramId", .str cashgramId)])) }

/-- The `deactivateCashgram` branch of `execute` (the credentials are
passed through unchanged there, without trimming). -/
def deactivateCashgramOp {Key : Type} (crypto : CryptoBackend Key)
    (fetch : HttpRequest → HttpResponse) (now : Nat)
    (payoutClientId payoutClientSecret payoutPublicKey environment : String)
    (cashgramId : String) : Except String Json × List HttpRequest :=
  match getPayoutAuthToken crypto fetch now payoutClientId payoutClientSecret
      payoutPublicKey environment with
  | (.error e, requests) => (.error e, requests)
  | (.ok authToken, requests) =>
    let request := deactivateRequest environment authToken cashgramId
    let response := fetch request
    if !response.ok then
      (.error ("Cashgram deactivation failed: " ++ toString response.status ++
        " - " ++ response.bodyText), requests ++ [request])
    else
      (.ok response.bodyJson, requests ++ [request])

/-- The per-item try/catch loop of `execute`: the body of the loop is
abstracted as the per-item outcome (success value or thrown error
message).  With continue-on-fail the error is caught and an
`{error: <message>}` marker is pushed and iteration continues; without
it the error is re-thrown, ending the loop.  The second component is
the number of items whose processing was started. -/
def runItems (continueOnFail : Bool) :
    List (Except String Json) → Except String (List Json) × Nat
  | [] => (.ok [], 0)
  | outcome :: rest =>
    match outcome with
    | .ok value =>
      match runItems continueOnFail rest with
      | (.ok values, n) => (.ok (value :: values), n + 1)
      | (.error e, n) => (.error e, n + 1)
    | .error e =>
      if continueOnFail then
        match runItems continueOnFail rest with
        | (.ok values, n) =>
          (.ok (Json.obj [("error", Json.str e)] :: values), n + 1)
        | (.error e2, n) => (.error e2, n + 1)
      else
        (.error e, 1)

/-! ### Concrete fixtures used by witnesses and counterexamples -/

/-- A crypto backend whose "encryption" is the identity on the
plaintext bytes and whose key is the DER bytes themselves; it makes
the signed subject observable in the signature header. -/
def idCrypto : CryptoBackend (List Nat) :=
  { createPublicKey := fun der _ _ => .ok der
    publicEncrypt := fun _ _ _ data => .ok data }

/-- A crypto backend whose key construction fails. -/
def failKeyCrypto : CryptoBackend Unit :=
  { createPublicKey := fun _ _ _ => .error "bad key"
    publicEncrypt := fun _ _ _ _ => .error "unreachable" }

/-- A fetch oracle returning the same response to every request. -/
def constFetch (response : HttpResponse) : HttpRequest → HttpResponse :=
  fun _ => response

/-- A successful authorize response carrying the token `abc123`. -/
def okTokenResponse : HttpResponse :=
  { ok := true, status := 200, bodyText := ""
    bodyJson := .obj [("status", .str "SUCCESS"),
                      ("data", .obj [("token", .str "abc123")])] }

/-- A non-success HTTP response. -/
def http500Response : HttpResponse :=
  { ok := false, status := 500, bodyText := "oops", bodyJson := .null }

/-- An ERROR-status authorize response. -/
def errStatusResponse : HttpResponse :=
  { ok := true, status := 200, bodyText := ""
    bodyJson := .obj [("status", .str "ERROR"),
                      ("message", .str "bad sig"),
                      ("subCode", .str "403")] }

/-- An authorize response of unexpected shape. -/
def oddShapeResponse : HttpResponse :=
  { ok := true, status := 200, bodyText := ""
    bodyJson := .obj [("foo", .str "bar")] }

/-- An ok response whose body is the JSON literal `null`. -/
def nullBodyResponse : HttpResponse :=
  { ok := true, status := 200, bodyText := "null", bodyJson := .null }

/-- Concrete createCashgram parameters. -/
def demoParams : CashgramParams :=
  { cashgramId := "CG1", amount := 10, name := "N", email := "e@x.com"
    phone := "9", linkExpiry := "2025-01-01", remarks := "r"
    notifyCustomer := 1 }

/-! ### Helper lemmas -/

theorem jsTrim_empty : jsTrim "" = "" := rfl

theorem ne_empty_of_jsTrim {s : String} (h : jsTrim s ≠ "") : s ≠ "" :=
  fun hs => h (by rw [hs]; exact jsTrim_empty)

/-- Run lemma: with non-empty (after trimming) credentials and a
successful signature, `getPayoutAuthToken` issues exactly the
authorize request and post-processes the fetched response. -/
theorem getPayoutAuthToken_run {Key : Type} (crypto : CryptoBackend Key)
    (fetch : HttpRequest → HttpResponse) (now : Nat)
    (clientId clientSecret publicKey environment : String)
    (h1 : jsTrim clientId ≠ "") (h2 : jsTrim clientSecret ≠ "")
    (h3 : jsTrim publicKey ≠ "") (signature : String)
    (hsig : generateEncryptedSignature crypto
      (createClientIdWithTimestamp now clientId) publicKey = .ok signature) :
    getPayoutAuthToken crypto fetch now clientId clientSecret publicKey
        environment =
      (match processAuthResponse
          (fetch (authorizeRequest clientId clientSecret signature environment)) with
       | .ok token => .ok token
       | .error e => .error (wrapAuthError e),
       [authorizeRequest clientId clientSecret signature environment]) := by
  have hc1 := ne_empty_of_jsTrim h1
  have hc2 := ne_empty_of_jsTrim h2
  have hc3 := ne_empty_of_jsTrim h3
  unfold getPayoutAuthToken
  rw [if_neg (by simp [hc1, h1]), if_neg (by simp [hc2, h2]),
    if_neg (by simp [hc3, h3]), hsig]
  rcases hp : processAuthResponse
      (fetch (authorizeRequest clientId clientSecret signature environment)) with
    e | token <;> simp [hp]

/-! ### C1 -/

/-- C1: for every crypto backend, signing subject and PEM public-key
text, `generateEncryptedSignature` strips the BEGIN/END PUBLIC KEY
delimiters and all whitespace (`cleanPublicKey`), base64-decodes the
remainder and builds a DER/SPKI key from it, encrypts the subject's
UTF-8 bytes with RSA using OAEP padding with SHA-1 as the OAEP (MGF1)
hash, and returns the base64 ciphertext; otherwise the one crypto step
that failed yields a `Failed to generate signature: <cause>` error,
and no other outcome is possible. -/
theorem generateEncryptedSignature_spec {Key : Type}
    (crypto : CryptoBackend Key) (subject publicKeyContent : String) :
    (∃ key ciphertext,
      crypto.createPublicKey (base64Decode (cleanPublicKey publicKeyContent))
          "der" "spki" = .ok key ∧
      crypto.publicEncrypt key "RSA_PKCS1_OAEP_PADDING" "sha1"
          (utf8Bytes subject) = .ok ciphertext ∧
      generateEncryptedSignature crypto subject publicKeyContent =
        .ok (base64Encode ciphertext)) ∨
    (∃ cause, generateEncryptedSignature crypto subject publicKeyContent =
      .error ("Failed to generate signature: " ++ cause)) := by
  rcases h1 : crypto.createPublicKey
      (base64Decode (cleanPublicKey publicKeyContent)) "der" "spki" with e | key
  · exact .inr ⟨e, by simp [generateEncryptedSignature, h1]⟩
  · rcases h2 : crypto.publicEncrypt key "RSA_PKCS1_OAEP_PADDING" "sha1"
        (utf8Bytes subject) with e | ciphertext
    · exact .inr ⟨e, by simp [generateEncryptedSignature, h1, h2]⟩
    · exact .inl ⟨key, ciphertext, rfl, h2,
        by simp [generateEncryptedSignature, h1, h2]⟩

/-! ### C2 -/

/-- Helper: on a non-nullish body, `processAuthBody` is the
SUCCESS/ERROR/fallback conditional chain. -/
theorem processAuthBody_not_nullish (authData : Json)
    (h1 : authData ≠ .null) (h2 : authData ≠ .undefined) :
    processAuthBody authData =
      (if successCond authData then
        .ok ((authData.get "data").get "token")
      else if (authData.get "status").eqStr "ERROR" then
        .error ("Cashfree API Error: " ++
          (authData.get "message").jsToString ++ " (" ++
          (authData.get "subCode").jsToString ++ ")")
      else
        .error ("No valid token found in authorization response: " ++
          Json.stringify authData)) := by
  cases authData
  case null => exact absurd rfl h1
  case undefined => exact absurd rfl h2
  all_goals rfl

/-- C2 counterexample: on an ok response whose parsed JSON body is the
literal `null`, the unguarded `authData.status` dereference throws a
TypeError, so the result is the TypeError message, not the
`No valid token found in authorization response: null` fallback the
claim requires for this "unexpected shape" — the claimed case analysis
is not exhaustive. -/
theorem processAuthResponse_null_counterexample :
    processAuthResponse nullBodyResponse =
      .error (typeErrorReadingStatus "null") ∧
    typeErrorReadingStatus "null" ≠
      "No valid token found in authorization response: " ++
        Json.stringify Json.null :=
  ⟨rfl, by decide⟩

/-- C2 amended: for every HTTP response to the authorize call: non-ok
status fails with `Authorization failed: <status> - <body>`; on
success, a `null` (or `undefined`) parsed body fails with the
TypeError from the unguarded status-field dereference; otherwise, if
the status field is `SUCCESS` and `data` and `data.token` are present
(truthy), exactly `data.token` is returned; otherwise, if the status
field is `ERROR`, it fails with the message and subCode fields;
otherwise it fails with the raw serialized response.  The conditional
equations cover the branches in the order the code checks them, and
are exhaustive. -/
theorem processAuthResponse_cases (response : HttpResponse) :
    (response.ok = false →
      processAuthResponse response =
        .error ("Authorization failed: " ++ toString response.status ++
          " - " ++ response.bodyText)) ∧
    (response.ok = true → response.bodyJson = .null →
      processAuthResponse response =
        .error (typeErrorReadingStatus "null")) ∧
    (response.ok = true → response.bodyJson = .undefined →
      processAuthResponse response =
        .error (typeErrorReadingStatus "undefined")) ∧
    (response.ok = true → response.bodyJson ≠ .null →
      response.bodyJson ≠ .undefined →
      successCond response.bodyJson = true →
      processAuthResponse response =
        .ok ((response.bodyJson.get "data").get "token")) ∧
    (response.ok = true → response.bodyJson ≠ .null →
      response.bodyJson ≠ .undefined →
      successCond response.bodyJson = false →
      (response.bodyJson.get "status").eqStr "ERROR" = true →
      processAuthResponse response =
        .error ("Cashfree API Error: " ++
          (response.bodyJson.get "message").jsToString ++ " (" ++
          (response.bodyJson.get "subCode").jsToString ++ ")")) ∧
    (response.ok = true → response.bodyJson ≠ .null →
      response.bodyJson ≠ .undefined →
      successCond response.bodyJson = false →
      (response.bodyJson.get "status").eqStr "ERROR" = false →
      processAuthResponse response =
        .error ("No valid token found in authorization response: " ++
          Json.stringify response.bodyJson)) := by
  refine ⟨?_, ?_, ?_, ?_, ?_, ?_⟩
  · intro h; simp [processAuthResponse, h]
  · intro hok hb; simp [processAuthResponse, hok, hb, processAuthBody]
  · intro hok hb; simp [processAuthResponse, hok, hb, processAuthBody]
  · intro hok h1 h2 hc
    simp only [processAuthResponse, hok]
    rw [if_neg (by simp), processAuthBody_not_nullish _ h1 h2]
    simp [hc]
  · intro hok h1 h2 hc he
    simp only [processAuthResponse, hok]
    rw [if_neg (by simp), processAuthBody_not_nullish _ h1 h2]
    simp [hc, he]
  · intro hok h1 h2 hc he
    simp only [processAuthResponse, hok]
    rw [if_neg (by simp), processAuthBody_not_nullish _ h1 h2]
    simp [hc, he]

/-- C2 witness: five of the branches evaluated at concrete
responses, including the null-body TypeError branch. -/
theorem processAuthResponse_cases_witness :
    processAuthResponse http500Response =
      .error ("Authorization failed: " ++ toString http500Response.status ++
        " - " ++ http500Response.bodyText) ∧
    processAuthResponse nullBodyResponse =
      .error (typeErrorReadingStatus "null") ∧
    processAuthResponse okTokenResponse =
      .ok ((okTokenResponse.bodyJson.get "data").get "token") ∧
    processAuthResponse errStatusResponse =
      .error ("Cashfree API Error: " ++
        (errStatusResponse.bodyJson.get "message").jsToString ++ " (" ++
        (errStatusResponse.bodyJson.get "subCode").jsToString ++ ")") ∧
    processAuthResponse oddShapeResponse =
      .error ("No valid token found in authorization response: " ++
        Json.stringify oddShapeResponse.bodyJson) :=
  ⟨(processAuthResponse_cases http500Response).1 rfl,
   (processAuthResponse_cases nullBodyResponse).2.1 rfl rfl,
   (processAuthResponse_cases okTokenResponse).2.2.2.1 rfl
     (by simp [okTokenResponse]) (by simp [okTokenResponse]) rfl,
   (processAuthResponse_cases errStatusResponse).2.2.2.2.1 rfl
     (by simp [errStatusResponse]) (by simp [errStatusResponse]) rfl rfl,
   (processAuthResponse_cases oddShapeResponse).2.2.2.2.2 rfl
     (by simp [oddShapeResponse]) (by simp [oddShapeResponse]) rfl rfl⟩

/-! ### C3 -/

/-- C3: whenever at least one of the identifier, secret or public key
is empty or whitespace-only after trimming, `getPayoutAuthToken` fails
with a validation failure naming the first missing field (client ID,
then client secret, then public key, wrapped by the outer handler) and
issues zero network calls — the result is independent of the crypto
backend and the fetch oracle. -/
theorem getPayoutAuthToken_validation {Key : Type} (crypto : CryptoBackend Key)
    (fetch : HttpRequest → HttpResponse) (now : Nat)
    (clientId clientSecret publicKey environment : String)
    (h : jsTrim clientId = "" ∨ jsTrim clientSecret = "" ∨ jsTrim publicKey = "") :
    getPayoutAuthToken crypto fetch now clientId clientSecret publicKey
        environment =
      (.error (wrapAuthError
        (if jsTrim clientId = "" then "Payout Client ID is empty or missing"
         else if jsTrim clientSecret = "" then
           "Payout Client Secret is empty or missing"
         else "Payout Public Key is empty or missing")), []) := by
  by_cases h1 : jsTrim clientId = ""
  · simp [getPayoutAuthToken, h1]
  · have hc1 := ne_empty_of_jsTrim h1
    by_cases h2 : jsTrim clientSecret = ""
    · simp [getPayoutAuthToken, h1, h2, hc1]
    · have hc2 := ne_empty_of_jsTrim h2
      have h3 : jsTrim publicKey = "" := by
        rcases h with ha | hb | hc
        · exact absurd ha h1
        · exact absurd hb h2
        · exact hc
      simp [getPayoutAuthToken, h1, h2, h3, hc1, hc2]

/-- C3 witness: a whitespace-only client id (with the other fields
present) is rejected as the first missing field, with no request
issued. -/
theorem getPayoutAuthToken_validation_witness :
    getPayoutAuthToken idCrypto (constFetch okTokenResponse) 0 " " "s" "k"
        "sandbox" =
      (.error (wrapAuthError "Payout Client ID is empty or missing"), []) :=
  getPayoutAuthToken_validation idCrypto (constFetch okTokenResponse) 0
    " " "s" "k" "sandbox" (Or.inl rfl)

/-! ### C4 -/

/-- C4 counterexample: with the identity crypto backend (which makes
the signed subject observable in the signature header), an accepted
identifier with surrounding whitespace, `" abc "`, at epoch 5000 ms,
produces an authorize request whose signature encrypts the subject
`" abc .5"` — the identifier as passed, not trimmed — and that
signature differs from the one the trimmed subject `"abc.5"` would
produce, refuting the claim that the signed subject uses the trimmed
identifier. -/
theorem signingSubject_trimmed_counterexample :
    (getPayoutAuthToken idCrypto (constFetch okTokenResponse) 5000 " abc "
        "sec" "key" "sandbox").2.map
        (fun r => r.headers.lookup "X-Cf-Signature") =
      [some (base64Encode (utf8Bytes " abc .5"))] ∧
    base64Encode (utf8Bytes " abc .5") ≠
      base64Encode (utf8Bytes ("abc" ++ "." ++ toString (5000 / 1000))) :=
  ⟨rfl, by decide⟩

/-- C4 amended: the SigningSubject that is signed equals the
identifier exactly as passed (untrimmed) followed by `.` followed by
`floor(now / 1000)`, with `now` the epoch sampled at this call: for
every crypto backend and accepted credentials, the single issued
authorize request carries in `X-Cf-Signature` the signature of
`clientId ++ "." ++ toString (now / 1000)`. -/
theorem signingSubject_raw_identifier {Key : Type} (crypto : CryptoBackend Key)
    (fetch : HttpRequest → HttpResponse) (now : Nat)
    (clientId clientSecret publicKey environment : String)
    (h1 : jsTrim clientId ≠ "") (h2 : jsTrim clientSecret ≠ "")
    (h3 : jsTrim publicKey ≠ "") (signature : String)
    (hsig : generateEncryptedSignature crypto
      (clientId ++ "." ++ toString (now / 1000)) publicKey = .ok signature) :
    (getPayoutAuthToken crypto fetch now clientId clientSecret publicKey
        environment).2.map (fun r => r.headers.lookup "X-Cf-Signature") =
      [some signature] := by
  rw [getPayoutAuthToken_run crypto fetch now clientId clientSecret publicKey
    environment h1 h2 h3 signature hsig]
  rfl

/-- C4 amended witness: identity backend, identifier `" abc "`, epoch
5000 ms — the issued request's signature is that of the raw subject
`" abc .5"`. -/
theorem signingSubject_raw_identifier_witness :
    (getPayoutAuthToken idCrypto (constFetch okTokenResponse) 5000 " abc "
        "sec" "key" "sandbox").2.map
        (fun r => r.headers.lookup "X-Cf-Signature") =
      [some (base64Encode (utf8Bytes " abc .5"))] :=
  signingSubject_raw_identifier idCrypto (constFetch okTokenResponse) 5000
    " abc " "sec" "key" "sandbox" (by decide) (by decide) (by decide)
    (base64Encode (utf8Bytes " abc .5")) rfl

/-! ### C5 -/

/-- C5: for every validated credential set (and a signature produced
for it), the authorize request issued by `getPayoutAuthToken` is a
POST to `<base>/payout/v1/authorize` whose headers carry the trimmed
identifier, the trimmed secret and the generated signature, with an
empty body — and it is the only request issued. -/
theorem authorize_request_shape {Key : Type} (crypto : CryptoBackend Key)
    (fetch : HttpRequest → HttpResponse) (now : Nat)
    (clientId clientSecret publicKey environment : String)
    (h1 : jsTrim clientId ≠ "") (h2 : jsTrim clientSecret ≠ "")
    (h3 : jsTrim publicKey ≠ "") (signature : String)
    (hsig : generateEncryptedSignature crypto
      (createClientIdWithTimestamp now clientId) publicKey = .ok signature) :
    (getPayoutAuthToken crypto fetch now clientId clientSecret publicKey
        environment).2 =
      [{ method := "POST"
         url := getPayoutBaseUrl environment ++ "/payout/v1/authorize"
         headers := [("Content-Type", "application/json"),
                     ("X-Client-Id", jsTrim clientId),
                     ("X-Client-Secret", jsTrim clientSecret),
                     ("X-Cf-Signature", signature)]
         body := none }] := by
  rw [getPayoutAuthToken_run crypto fetch now clientId clientSecret publicKey
    environment h1 h2 h3 signature hsig]
  rfl

/-- C5 witness: concrete credentials with whitespace around the
identifier and the secret; the single request is the authorize POST
with trimmed header values and no body. -/
theorem authorize_request_shape_witness :
    (getPayoutAuthToken idCrypto (constFetch okTokenResponse) 5000 " id "
        "sec " "key" "sandbox").2 =
      [{ method := "POST"
         url := getPayoutBaseUrl "sandbox" ++ "/payout/v1/authorize"
         headers := [("Content-Type", "application/json"),
                     ("X-Client-Id", jsTrim " id "),
                     ("X-Client-Secret", jsTrim "sec "),
                     ("X-Cf-Signature", base64Encode (utf8Bytes " id .5"))]
         body := none }] :=
  authorize_request_shape idCrypto (constFetch okTokenResponse) 5000 " id "
    "sec " "key" "sandbox" (by decide) (by decide) (by decide)
    (base64Encode (utf8Bytes " id .5")) rfl

/-! ### C6 -/

/-- C6: whenever the full authorization exchange run by the
createCashgram branch yields a bearer token, the operation issues
exactly one further HTTP POST, to
`<payoutBase>/payout/v1/createCashgram`, with an
`Authorization: Bearer <token>` header and a JSON body of exactly the
eight request fields (`cashgramBody`); on non-ok HTTP status it fails
with `Cashgram creation failed: <status> - <body>`, and on success it
returns the parsed JSON response unchanged. -/
theorem createCashgram_spec {Key : Type} (crypto : CryptoBackend Key)
    (fetch : HttpRequest → HttpResponse) (now : Nat)
    (payoutClientId payoutClientSecret payoutPublicKey environment : String)
    (params : CashgramParams) (token : Json) (authRequests : List HttpRequest)
    (hauth : getPayoutAuthToken crypto fetch now (jsTrim payoutClientId)
      (jsTrim payoutClientSecret) payoutPublicKey environment =
      (.ok token, authRequests)) :
    createCashgramOp crypto fetch now payoutClientId payoutClientSecret
        payoutPublicKey environment params =
      (if (fetch (cashgramRequest environment token params)).ok then
        .ok (fetch (cashgramRequest environment token params)).bodyJson
       else
        .error ("Cashgram creation failed: " ++
          toString (fetch (cashgramRequest environment token params)).status ++
          " - " ++ (fetch (cashgramRequest environment token params)).bodyText),
       authRequests ++ [cashgramRequest environment token params]) := by
  unfold createCashgramOp
  rw [hauth]
  rcases hok : (fetch (cashgramRequest environment token params)).ok <;>
    simp [hok]

/-- C6 witness: concrete run against the constant success oracle — the
token is obtained first, the single cashgram POST follows the
authorize request, and the parsed JSON response is returned. -/
theorem createCashgram_spec_witness :
    getPayoutAuthToken idCrypto (constFetch okTokenResponse) 5000
        (jsTrim "id") (jsTrim "sec") "key" "sandbox" =
      (.ok (.str "abc123"),
       [authorizeRequest "id" "sec" (base64Encode (utf8Bytes "id.5")) "sandbox"]) ∧
    createCashgramOp idCrypto (constFetch okTokenResponse) 5000 "id" "sec"
        "key" "sandbox" demoParams =
      (.ok okTokenResponse.bodyJson,
       [authorizeRequest "id" "sec" (base64Encode (utf8Bytes "id.5")) "sandbox"] ++
       [cashgramRequest "sandbox" (.str "abc123") demoParams]) :=
  ⟨rfl,
   createCashgram_spec idCrypto (constFetch okTokenResponse) 5000 "id" "sec"
     "key" "sandbox" demoParams (.str "abc123")
     [authorizeRequest "id" "sec" (base64Encode (utf8Bytes "id.5")) "sandbox"]
     rfl⟩

/-! ### C7 -/

/-- C7: switching the environment selector between sandbox and
production changes only the host portion of the payout URLs: each base
URL is `https://` followed by an environment-dependent host, and the
authorize, createCashgram and deactivateCashgram requests append the
fixed paths `/payout/v1/authorize`, `/payout/v1/createCashgram` and
`/payout/v1/deactivateCashgram` to it while their method, headers and
body do not depend on the environment (shown for the part_000 variant;
the part_001 variant differs only in the sandbox host name). -/
theorem environment_changes_only_host :
    (∀ e, getPayoutBaseUrl e = "https://" ++
      (if e = "sandbox" then "sandbox.cashfree.com"
       else "payout-api.cashfree.com")) ∧
    (∀ e, getPayoutBaseUrlGamma e = "https://" ++
      (if e = "sandbox" then "payout-gamma.cashfree.com"
       else "payout-api.cashfree.com")) ∧
    (∀ cid csec sig e1 e2,
      (authorizeRequest cid csec sig e1).method =
        (authorizeRequest cid csec sig e2).method ∧
      (authorizeRequest cid csec sig e1).headers =
        (authorizeRequest cid csec sig e2).headers ∧
      (authorizeRequest cid csec sig e1).body =
        (authorizeRequest cid csec sig e2).body ∧
      (authorizeRequest cid csec sig e1).url =
        getPayoutBaseUrl e1 ++ "/payout/v1/authorize") ∧
    (∀ tok params e1 e2,
      (cashgramRequest e1 tok params).method =
        (cashgramRequest e2 tok params).method ∧
      (cashgramRequest e1 tok params).headers =
        (cashgramRequest e2 tok params).headers ∧
      (cashgramRequest e1 tok params).body =
        (cashgramRequest e2 tok params).body ∧
      (cashgramRequest e1 tok params).url =
        getPayoutBaseUrl e1 ++ "/payout/v1/createCashgram") ∧
    (∀ tok cid e1 e2,
      (deactivateRequest e1 tok cid).method =
        (deactivateRequest e2 tok cid).method ∧
      (deactivateRequest e1 tok cid).headers =
        (deactivateRequest e2 tok cid).headers ∧
      (deactivateRequest e1 tok cid).body =
        (deactivateRequest e2 tok cid).body ∧
      (deactivateRequest e1 tok cid).url =
        getPayoutBaseUrl e1 ++ "/payout/v1/deactivateCashgram") := by
  refine ⟨fun e => ?_, fun e => ?_, fun _ _ _ _ _ => ⟨rfl, rfl, rfl, rfl⟩,
    fun _ _ _ _ => ⟨rfl, rfl, rfl, rfl⟩, fun _ _ _ _ => ⟨rfl, rfl, rfl, rfl⟩⟩ <;>
  · by_cases h : e = "sandbox" <;> simp [getPayoutBaseUrl, getPayoutBaseUrlGamma, h]

/-! ### C8 -/

/-- Helper: with continue-on-fail, every item is processed and failing
items are replaced by `{error: <message>}` markers. -/
theorem runItems_continue_eq :
    ∀ outcomes : List (Except String Json),
      runItems true outcomes =
        (.ok (outcomes.map (fun o => match o with
          | .ok v => v
          | .error e => Json.obj [("error", Json.str e)])), outcomes.length)
  | [] => rfl
  | .ok v :: rest => by
    simp [runItems, runItems_continue_eq rest]
  | .error e :: rest => by
    simp [runItems, runItems_continue_eq rest]

/-- Helper: without continue-on-fail, the first failing item re-throws
its error and exactly the items up to and including it are processed. -/
theorem runItems_abort_eq (e : String) (rest : List (Except String Json)) :
    ∀ pre : List (Except String Json), (∀ x ∈ pre, ∃ v, x = .ok v) →
      runItems false (pre ++ .error e :: rest) = (.error e, pre.length + 1)
  | [], _ => by simp [runItems]
  | x :: pre, h => by
    obtain ⟨v, rfl⟩ := h x (List.mem_cons_self _ _)
    have ih := runItems_abort_eq e rest pre
      (fun y hy => h y (List.mem_cons_of_mem _ hy))
    simp [runItems, ih]

/-- C8: for every batch of per-item outcomes: with continue-on-fail
enabled, an error on an item is caught, an `{error: <message>}` marker
is substituted for that item, and all items are processed; with it
disabled, the first failing item re-throws its error and no subsequent
item is processed (exactly the items up to and including the failing
one are started). -/
theorem execute_continueOnFail (outcomes : List (Except String Json)) :
    (runItems true outcomes =
      (.ok (outcomes.map (fun o => match o with
        | .ok v => v
        | .error e => Json.obj [("error", Json.str e)])), outcomes.length)) ∧
    (∀ pre e rest, outcomes = pre ++ .error e :: rest →
      (∀ x ∈ pre, ∃ v, x = .ok v) →
      runItems false outcomes = (.error e, pre.length + 1)) := by
  refine ⟨runItems_continue_eq outcomes, ?_⟩
  rintro pre e rest rfl h
  exact runItems_abort_eq e rest pre h

/-- C8 witness: a batch whose second item fails — with continue-on-fail
the marker is substituted and the third item still runs; without it
the error re-throws after two items. -/
theorem execute_continueOnFail_witness :
    runItems true [.ok (.str "a"), .error "boom", .ok (.str "b")] =
      (.ok [.str "a", Json.obj [("error", Json.str "boom")], .str "b"], 3) ∧
    runItems false [.ok (.str "a"), .error "boom", .ok (.str "b")] =
      (.error "boom", 2) := by
  refine ⟨(execute_continueOnFail _).1, ?_⟩
  exact (execute_continueOnFail _).2 [.ok (.str "a")] "boom" [.ok (.str "b")]
    rfl (by intro x hx; simp at hx; exact ⟨_, hx⟩)

/-! ### C9 -/

/-- C9 (implicit): `getPayoutBaseUrl` maps every environment string
other than exactly `"sandbox"` — including the empty string,
`"SANDBOX"` and `"Production"` — to the production host, in both
source variants: a missing or misspelled selector routes traffic to
production rather than failing. -/
theorem getPayoutBaseUrl_defaults_to_production (environment : String)
    (h : environment ≠ "sandbox") :
    getPayoutBaseUrl environment = "https://payout-api.cashfree.com" ∧
    getPayoutBaseUrlGamma environment = "https://payout-api.cashfree.com" := by
  constructor <;> simp [getPayoutBaseUrl, getPayoutBaseUrlGamma, h]

/-- C9 witness: the empty string, `"SANDBOX"` and `"Production"` all
map to the production host. -/
theorem getPayoutBaseUrl_defaults_to_production_witness :
    getPayoutBaseUrl "" = "https://payout-api.cashfree.com" ∧
    getPayoutBaseUrl "SANDBOX" = "https://payout-api.cashfree.com" ∧
    getPayoutBaseUrlGamma "Production" = "https://payout-api.cashfree.com" :=
  ⟨(getPayoutBaseUrl_defaults_to_production "" (by decide)).1,
   (getPayoutBaseUrl_defaults_to_production "SANDBOX" (by decide)).1,
   (getPayoutBaseUrl_defaults_to_production "Production" (by decide)).2⟩

/-! ### C10 -/

/-- C10 (implicit): every failure of `getPayoutAuthToken` — validation,
signature generation, non-ok HTTP status, upstream ERROR status, or
unexpected response shape — is re-wrapped by the outer handler, so the
message the caller sees always begins with
`Failed to get authorization token: `; in particular a key failure
surfaces doubly wrapped, as
`Failed to get authorization token: ` ++
`Failed to generate signature: <cause>`.  All failures travel in the
single `String` error channel, so the kinds differ only in message
text, not in type. -/
theorem authToken_errors_wrapped {Key : Type} (crypto : CryptoBackend Key)
    (fetch : HttpRequest → HttpResponse) (now : Nat)
    (clientId clientSecret publicKey environment : String) :
    (∀ e, (getPayoutAuthToken crypto fetch now clientId clientSecret publicKey
        environment).1 = .error e →
      ∃ rest, e = "Failed to get authorization token: " ++ rest) ∧
    (∀ m, crypto.createPublicKey (base64Decode (cleanPublicKey publicKey))
        "der" "spki" = .error m →
      jsTrim clientId ≠ "" → jsTrim clientSecret ≠ "" → jsTrim publicKey ≠ "" →
      (getPayoutAuthToken crypto fetch now clientId clientSecret publicKey
          environment).1 =
        .error ("Failed to get authorization token: " ++
          ("Failed to generate signature: " ++ m))) := by
  constructor
  · intro e he
    unfold getPayoutAuthToken at he
    repeat' split at he
    all_goals try exact ⟨_, (Except.error.inj he).symm⟩
    rename_i sig heq
    rcases hp : processAuthResponse
        (fetch (authorizeRequest clientId clientSecret sig environment)) with
      e2 | tok <;> simp only [hp] at he
    · exact ⟨_, (Except.error.inj he).symm⟩
    · simp at he
  · intro m hkey h1 h2 h3
    have hsig : generateEncryptedSignature crypto
        (createClientIdWithTimestamp now clientId) publicKey =
        .error ("Failed to generate signature: " ++ m) := by
      simp [generateEncryptedSignature, hkey]
    unfold getPayoutAuthToken
    rw [if_neg (by simp [ne_empty_of_jsTrim h1, h1]),
      if_neg (by simp [ne_empty_of_jsTrim h2, h2]),
      if_neg (by simp [ne_empty_of_jsTrim h3, h3]), hsig]
    rfl

/-- C10 witness: a failing key construction surfaces doubly wrapped,
and the error message carries the outer prefix. -/
theorem authToken_errors_wrapped_witness :
    (∃ rest,
      (("Failed to get authorization token: " ++
        ("Failed to generate signature: " ++ "bad key")) : String) =
        "Failed to get authorization token: " ++ rest) ∧
    (getPayoutAuthToken failKeyCrypto (constFetch okTokenResponse) 5000 "id"
        "sec" "key" "production").1 =
      .error ("Failed to get authorization token: " ++
        ("Failed to generate signature: " ++ "bad key")) :=
  ⟨(authToken_errors_wrapped failKeyCrypto (constFetch okTokenResponse) 5000
      "id" "sec" "key" "production").1 _
    ((authToken_errors_wrapped failKeyCrypto (constFetch okTokenResponse) 5000
      "id" "sec" "key" "production").2 "bad key" rfl (by decide) (by decide)
      (by decide)),
   (authToken_errors_wrapped failKeyCrypto (constFetch okTokenResponse) 5000
      "id" "sec" "key" "production").2 "bad key" rfl (by decide) (by decide)
      (by decide)⟩
